import Mathlib

/-!
Shallow embedding of the order-lifecycle core of the build_adda backend:
the Order model (src/models/Order.js) with its pre-save hooks and instance
methods, the OrderService and PaymentService, and the order / distributor
controllers, as far as the verified claims need them.

Conventions of the embedding:
* JS numbers holding money are rationals; an `Option ℚ` marks a value that
  can be the JS `NaN` or `undefined` (`none`).
* Mongoose ObjectIds are `Nat`, timestamps are `Nat` ticks.
* A mongoose `save` is explicit: each operation records which paths it
  modified, and `orderSave` runs the schema validators of the modified
  pricing paths plus the two registered pre-save hooks (status-history
  push, total-amount check), in that order.
* Thrown JS errors become `Except OrderError`; the constructor mirrors the
  error class (`ValidationError`, `NotFoundError`, `AuthorizationError`,
  plain `Error`).
-/

inductive OrderStatus
  | pending
  | confirmed
  | processing
  | shipped
  | delivered
  | cancelled
deriving DecidableEq, Repr

def OrderStatus.text : OrderStatus → String
  | .pending => "pending"
  | .confirmed => "confirmed"
  | .processing => "processing"
  | .shipped => "shipped"
  | .delivered => "delivered"
  | .cancelled => "cancelled"

/-- Position of a status in the array
`['pending','confirmed','processing','shipped','delivered']` used by
`updateStatus`; `indexOf` yields `-1` for `cancelled`. -/
def statusIndex : OrderStatus → Int
  | .pending => 0
  | .confirmed => 1
  | .processing => 2
  | .shipped => 3
  | .delivered => 4
  | .cancelled => -1

inductive ApprovalStatus
  | pending
  | approved
  | rejected
deriving DecidableEq, Repr

inductive PaymentStatus
  | pending
  | paid
  | failed
  | refunded
deriving DecidableEq, Repr

inductive PaymentMethod
  | online
  | cod
deriving DecidableEq, Repr

/-- Enum `['User', 'Distributor']` used for `updatedByModel` and
`cancelledByModel`. -/
inductive ActorModel
  | user
  | distributor
deriving DecidableEq, Repr

structure HistoryEntry where
  status : OrderStatus
  timestamp : Nat
  note : String
  updatedBy : Option Nat
  updatedByModel : Option ActorModel
deriving DecidableEq, Repr

structure OrderItem where
  product : Nat
  itemDistributor : Option Nat
  quantity : Nat
  price : ℚ
  name : Option String
  image : Option String
deriving DecidableEq, Repr

structure ShippingAddress where
  fullName : String
  phone : String
  address : String
  city : String
  state : String
  pincode : String
deriving DecidableEq, Repr

structure Order where
  orderNumber : String
  user : Nat
  distributor : Nat
  items : List OrderItem
  subtotal : ℚ
  discount : ℚ
  tax : ℚ
  taxPercentage : ℚ
  deliveryCharge : ℚ
  totalAmount : ℚ
  shippingAddress : ShippingAddress
  paymentMethod : PaymentMethod
  paymentStatus : PaymentStatus
  razorpayOrderId : Option String
  razorpayPaymentId : Option String
  razorpaySignature : Option String
  orderStatus : OrderStatus
  statusHistory : List HistoryEntry
  couponCode : Option String
  couponRef : Option Nat
  cancellationReason : Option String
  cancelledAt : Option Nat
  cancelledBy : Option Nat
  cancelledByModel : Option ActorModel
  approvalStatus : ApprovalStatus
  approvedAt : Option Nat
  approvedBy : Option Nat
  rejectionReason : Option String
deriving DecidableEq, Repr

inductive OrderError
  | validation (msg : String)
  | notFound (msg : String)
  | authorization (msg : String)
  | generic (msg : String)
deriving DecidableEq, Repr

/-- JS `a || b` for a possibly-undefined string: the default is taken when
the value is `undefined` or the empty string (both falsy). -/
def jsStringOr (s : Option String) (d : String) : String :=
  match s with
  | some v => if v = "" then d else v
  | none => d

def exceptOk {α : Type} (e : Except OrderError α) : Bool :=
  match e with
  | .ok _ => true
  | .error _ => false

/-- Which schema paths a save has touched, at the granularity the two
pre-save hooks look at: `orderStatus`, and the pricing group
`['subtotal', 'discount', 'deliveryCharge', 'totalAmount', 'tax']`. -/
structure ModifiedPaths where
  orderStatus : Bool
  pricing : Bool
deriving DecidableEq, Repr

def calculatedTotal (o : Order) : ℚ :=
  o.subtotal + o.deliveryCharge - o.discount

/-- Rounding allowance of the total-amount pre-save check (5 rupees). -/
def orderTotalTolerance : ℚ := 5

/-- Entry pushed by the automatic status-history pre-save hook: generated
note, no actor. -/
def autoHistoryEntry (now : Nat) (o : Order) : HistoryEntry :=
  { status := o.orderStatus, timestamp := now,
    note := "Order status changed to " ++ o.orderStatus.text,
    updatedBy := none, updatedByModel := none }

/-- First pre-save hook: push a status-history entry when `orderStatus`
changed. -/
def historyHook (now : Nat) (m : ModifiedPaths) (o : Order) : Order :=
  if m.orderStatus then
    { o with statusHistory := o.statusHistory ++ [autoHistoryEntry now o] }
  else o

/-- Second pre-save hook: when a pricing field was modified, require
`|subtotal + deliveryCharge - discount - totalAmount| ≤ 5`, else the save
fails with a plain `Error`. -/
def totalAmountHook (m : ModifiedPaths) (o : Order) : Except OrderError Order :=
  if !m.pricing then .ok o
  else if orderTotalTolerance < |calculatedTotal o - o.totalAmount| then
    .error (.generic "Total amount mismatch")
  else .ok o

/-- Schema `min: 0` validators of the pricing paths, run by mongoose before
the user pre-save hooks whenever those paths were modified. -/
def pricingFieldsValid (o : Order) : Bool :=
  decide (0 ≤ o.subtotal) && decide (0 ≤ o.discount) && decide (0 ≤ o.tax)
    && decide (0 ≤ o.deliveryCharge) && decide (0 ≤ o.totalAmount)

/-- A mongoose `save`: schema validation of the modified pricing paths,
then the two pre-save hooks in registration order. -/
def orderSave (m : ModifiedPaths) (now : Nat) (o : Order) : Except OrderError Order :=
  if m.pricing && !pricingFieldsValid o then
    .error (.validation "Order validation failed")
  else
    totalAmountHook m (historyHook now m o)

/-- Virtual `canBeCancelled`: status is one of
`['pending', 'confirmed', 'processing']`. -/
def canBeCancelled (o : Order) : Bool :=
  match o.orderStatus with
  | .pending => true
  | .confirmed => true
  | .processing => true
  | _ => false

/-- Instance method `cancel`. -/
def Order.cancel (o : Order) (reason : String) (cancelledBy : Nat)
    (cancelledByModel : ActorModel) (now : Nat) : Except OrderError Order :=
  if !canBeCancelled o then
    .error (.generic "Order cannot be cancelled in current status")
  else
    orderSave { orderStatus := true, pricing := false } now
      { o with orderStatus := .cancelled, cancellationReason := some reason,
               cancelledAt := some now, cancelledBy := some cancelledBy,
               cancelledByModel := some cancelledByModel }

/-- Accepted branch of `updateStatus`: set the status, push the explicit
history entry (JS `note || default`), then save. -/
def Order.updateStatusAccept (o : Order) (newStatus : OrderStatus) (note : Option String)
    (updatedBy : Nat) (updatedByModel : ActorModel) (now : Nat) : Except OrderError Order :=
  orderSave { orderStatus := true, pricing := false } now
    { o with orderStatus := newStatus,
             statusHistory := o.statusHistory ++
               [{ status := newStatus, timestamp := now,
                  note := jsStringOr note ("Status updated to " ++ newStatus.text),
                  updatedBy := some updatedBy, updatedByModel := some updatedByModel }] }

/-- Instance method `updateStatus`. -/
def Order.updateStatus (o : Order) (newStatus : OrderStatus) (note : Option String)
    (updatedBy : Nat) (updatedByModel : ActorModel) (now : Nat) : Except OrderError Order :=
  if o.orderStatus = .delivered then
    .error (.validation "Cannot update status of delivered orders")
  else if o.orderStatus = .cancelled then
    .error (.validation "Cannot update status of cancelled orders")
  else if newStatus = .cancelled then
    o.updateStatusAccept newStatus note updatedBy updatedByModel now
  else if statusIndex o.orderStatus < statusIndex newStatus then
    o.updateStatusAccept newStatus note updatedBy updatedByModel now
  else
    .error (.validation ("Cannot transition from " ++ o.orderStatus.text ++ " to "
      ++ newStatus.text ++ ". Can only move forward or cancel."))

/-- Instance method `approveOrder`. -/
def Order.approveOrder (o : Order) (distributorId : Nat) (deliveryCharge : Option ℚ)
    (now : Nat) : Except OrderError Order :=
  if o.approvalStatus ≠ .pending then
    .error (.generic "Order has already been approved or rejected")
  else
    let o1 := { o with approvalStatus := ApprovalStatus.approved,
                       approvedAt := some now, approvedBy := some distributorId }
    let o2 := match deliveryCharge with
      | some dc => { o1 with deliveryCharge := dc,
                             totalAmount := o1.subtotal + dc - o1.discount }
      | none => o1
    let o3 := if o2.orderStatus = OrderStatus.pending then
                { o2 with orderStatus := OrderStatus.confirmed }
              else o2
    orderSave { orderStatus := decide (o.orderStatus = OrderStatus.pending),
                pricing := deliveryCharge.isSome } now o3

/-- Instance method `rejectOrder`. -/
def Order.rejectOrder (o : Order) (distributorId : Nat) (reason : String)
    (now : Nat) : Except OrderError Order :=
  if o.approvalStatus ≠ .pending then
    .error (.generic "Order has already been approved or rejected")
  else
    orderSave { orderStatus := decide (o.orderStatus ≠ .cancelled), pricing := false } now
      { o with approvalStatus := ApprovalStatus.rejected, rejectionReason := some reason,
               approvedBy := some distributorId, orderStatus := OrderStatus.cancelled,
               cancelledAt := some now, cancelledBy := some distributorId,
               cancelledByModel := some ActorModel.distributor }

/-- JS `toUpperCase`, character by character over the underlying list. -/
def jsToUpper (s : String) : String :=
  String.mk (s.data.map Char.toUpper)

/-- JS `trim`: strip whitespace from both ends. -/
def jsTrim (s : String) : String :=
  String.mk (((s.data.dropWhile Char.isWhitespace).reverse.dropWhile
    Char.isWhitespace).reverse)

inductive DiscountType
  | percentage
  | fixed
deriving DecidableEq, Repr

/-- Coupon document; the field set is the one OrderService.applyCoupon
reads and writes (code, isActive, expiryDate, minPurchase, discountType,
discountValue, maxDiscount, usageCount). -/
structure Coupon where
  code : String
  discountType : DiscountType
  discountValue : ℚ
  minPurchase : ℚ
  maxDiscount : ℚ
  expiryDate : Nat
  isActive : Bool
  usageCount : Nat
deriving DecidableEq, Repr

/-- The `Coupon.findOne` query: uppercased code match, active, and
`expiryDate: { $gte: new Date() }`. -/
def findCoupon (db : List Coupon) (code : String) (now : Nat) : Option Coupon :=
  db.find? (fun c => c.code == jsToUpper code && c.isActive && decide (now ≤ c.expiryDate))

/-- Discount computation of `OrderService.applyCoupon`: percentage with a
cap applied only when `maxDiscount > 0`, or a flat fixed value. -/
def couponDiscount (c : Coupon) (totalAmount : ℚ) : ℚ :=
  match c.discountType with
  | .percentage =>
    let d := totalAmount * c.discountValue / 100
    if 0 < c.maxDiscount ∧ c.maxDiscount < d then c.maxDiscount else d
  | .fixed => c.discountValue

/-- The coupon `save`: the document replaces the one with its code. -/
def saveCouponInDb (db : List Coupon) (c : Coupon) : List Coupon :=
  db.map (fun x => if x.code == c.code then c else x)

/-- `OrderService.applyCoupon(couponCode, totalAmount)`: lookup, expiry
and minimum-purchase gates, discount computation, then the unconditional
`usageCount += 1` followed by `coupon.save()`. Returns the discount, the
saved coupon document, and the coupon collection after the save. -/
def applyCouponService (db : List Coupon) (code : String) (totalAmount : ℚ)
    (now : Nat) : Except OrderError (ℚ × Coupon × List Coupon) :=
  match findCoupon db code now with
  | none => .error (.generic "Invalid or expired coupon")
  | some coupon =>
    if totalAmount < coupon.minPurchase then
      .error (.generic "Minimum purchase required")
    else
      let saved := { coupon with usageCount := coupon.usageCount + 1 }
      .ok (couponDiscount coupon totalAmount, saved, saveCouponInDb db saved)

structure CouponPreviewResponse where
  discount : Option ℚ
  finalAmount : Option ℚ
deriving DecidableEq, Repr

/-- The standalone `applyCoupon` controller (`POST /api/orders/coupon/apply`,
the pre-checkout preview). It calls the same `OrderService.applyCoupon` as
order creation. The service returns a plain number, so the controller
reads `result.discount` as JS `undefined` and `totalAmount - result.discount`
as `NaN`; both are `none` in the response. The coupon collection it hands
back is the one after the save the service already performed. -/
def applyCouponRoute (db : List Coupon) (couponCode : Option String)
    (totalAmount : ℚ) (now : Nat) :
    Except OrderError (CouponPreviewResponse × List Coupon) :=
  if jsStringOr couponCode "" = "" then
    .error (.validation "Coupon code is required")
  else if totalAmount ≤ 0 then
    .error (.validation "Valid total amount is required")
  else
    match applyCouponService db (jsStringOr couponCode "") totalAmount now with
    | .error e => .error e
    | .ok (_, _, db2) => .ok ({ discount := none, finalAmount := none }, db2)

/-- Product document, restricted to the fields the order core reads.
Stock is `Int` because `$inc` updates bypass the schema validators. -/
structure Product where
  price : ℚ
  stock : Int
  isActive : Bool
  productDistributor : Option Nat
  name : String
  image : Option String
deriving DecidableEq, Repr

def Catalog : Type := List (Nat × Product)

def findProduct (catalog : Catalog) (pid : Nat) : Option Product :=
  (List.find? (fun e => e.fst == pid) catalog).map (fun e => e.snd)

/-- `Product.findByIdAndUpdate(pid, { $inc: { stock: delta } })`. -/
def incStock (catalog : Catalog) (pid : Nat) (delta : Int) : Catalog :=
  List.map (fun e => if e.fst == pid then
    (e.fst, { e.snd with stock := e.snd.stock + delta }) else e) catalog

structure RequestItem where
  product : Nat
  quantity : Nat
deriving DecidableEq, Repr

/-- The item-validation loop of the createOrder controller: each item needs
a truthy quantity, an existing active product with enough stock; the price
used is the current catalog price. Returns the validated items and the
accumulated subtotal. -/
def validateItems (catalog : Catalog) :
    List RequestItem → Except OrderError (List OrderItem × ℚ)
  | [] => .ok ([], 0)
  | item :: rest =>
    if item.quantity = 0 then
      .error (.validation "Each item must have product and quantity")
    else
      match findProduct catalog item.product with
      | none => .error (.notFound "Product not found")
      | some p =>
        if !p.isActive then
          .error (.validation ("Product " ++ p.name ++ " is not available"))
        else if p.stock < (item.quantity : Int) then
          .error (.validation ("Insufficient stock for " ++ p.name))
        else
          match validateItems catalog rest with
          | .error e => .error e
          | .ok (vs, sub) =>
            .ok ({ product := item.product, itemDistributor := p.productDistributor,
                   quantity := item.quantity, price := p.price,
                   name := some p.name, image := p.image } :: vs,
                 p.price * (item.quantity : ℚ) + sub)

/-- Fields passed to `Order.create`; `totalAmount` is `Option ℚ` because
the controller can compute it as the JS `NaN` (`none`). -/
structure OrderData where
  orderNumber : String
  user : Nat
  distributor : Nat
  items : List OrderItem
  subtotal : ℚ
  discount : ℚ
  tax : ℚ
  taxPercentage : ℚ
  deliveryCharge : ℚ
  totalAmount : Option ℚ
  shippingAddress : ShippingAddress
  paymentMethod : PaymentMethod
  couponCode : Option String
  couponRef : Option Nat
deriving DecidableEq, Repr

/-- `Order.create(data)`: a `NaN` total fails the schema `min: 0` validator
(`NaN >= 0` is false in JS); otherwise the new document is saved with every
path modified, which runs both pre-save hooks. -/
def mongooseCreateOrder (data : OrderData) (now : Nat) : Except OrderError Order :=
  match data.totalAmount with
  | none => .error (.validation "Total amount cannot be negative")
  | some t =>
    orderSave { orderStatus := true, pricing := true } now
      { orderNumber := data.orderNumber, user := data.user,
        distributor := data.distributor, items := data.items,
        subtotal := data.subtotal, discount := data.discount, tax := data.tax,
        taxPercentage := data.taxPercentage, deliveryCharge := data.deliveryCharge,
        totalAmount := t, shippingAddress := data.shippingAddress,
        paymentMethod := data.paymentMethod, paymentStatus := .pending,
        razorpayOrderId := none, razorpayPaymentId := none,
        razorpaySignature := none, orderStatus := .pending, statusHistory := [],
        couponCode := data.couponCode, couponRef := data.couponRef,
        cancellationReason := none, cancelledAt := none, cancelledBy := none,
        cancelledByModel := none, approvalStatus := .pending, approvedAt := none,
        approvedBy := none, rejectionReason := none }

/-- `OrderService.createOrder`: create the document, then decrement each
ordered product's stock with `$inc`. -/
def serviceCreateOrder (catalog : Catalog) (data : OrderData) (now : Nat) :
    Except OrderError (Order × Catalog) :=
  match mongooseCreateOrder data now with
  | .error e => .error e
  | .ok o =>
    .ok (o, data.items.foldl
      (fun cat it => incStock cat it.product (-(it.quantity : Int))) catalog)

structure CreateOrderBody where
  items : List RequestItem
  shippingAddress : Option ShippingAddress
  paymentMethod : Option PaymentMethod
  couponCode : Option String
  distributor : Option Nat
deriving DecidableEq, Repr

/-- Coupon step of the createOrder controller. The service returns a plain
number, so `result.discount` is JS `undefined`; the flag records whether a
coupon was applied (making the computed total `NaN` downstream), and the
returned collection reflects the usage increment the service saved. -/
def createOrderCouponStep (couponDb : List Coupon) (couponCode : Option String)
    (subtotal : ℚ) (now : Nat) : Except OrderError (Bool × List Coupon) :=
  match couponCode with
  | some cc =>
    if cc = "" then .ok (false, couponDb)
    else
      match applyCouponService couponDb cc subtotal now with
      | .error e => .error e
      | .ok (_, _, db2) => .ok (true, db2)
  | none => .ok (false, couponDb)

/-- `createOrder` controller (`POST /api/orders`): fail-fast input checks,
item validation at current catalog prices, coupon application, the pricing
computation `tax = subtotal * 0.18`, `deliveryCharge = subtotal > 1000 ? 0
: 50`, `totalAmount = subtotal + tax + deliveryCharge - discount` (where
`discount` is `undefined` on the coupon path, so the total is `NaN` there
and the stored discount falls back to the schema default 0), then
`OrderService.createOrder`. -/
def controllerCreateOrder (catalog : Catalog) (couponDb : List Coupon)
    (userId : Nat) (body : CreateOrderBody) (orderNumber : String) (now : Nat) :
    Except OrderError (Order × Catalog × List Coupon) :=
  if body.items.isEmpty then
    .error (.validation "Order must contain at least one item")
  else
    match body.shippingAddress with
    | none => .error (.validation "Shipping address is required")
    | some addr =>
      match body.paymentMethod with
      | none => .error (.validation "Payment method is required")
      | some pm =>
        match body.distributor with
        | none => .error (.validation "Distributor is required")
        | some dist =>
          match validateItems catalog body.items with
          | .error e => .error e
          | .ok (vitems, subtotal) =>
            match createOrderCouponStep couponDb body.couponCode subtotal now with
            | .error e => .error e
            | .ok (couponUsed, db2) =>
              let tax := subtotal * (18 / 100)
              let deliveryCharge : ℚ := if 1000 < subtotal then 0 else 50
              let totalAmount : Option ℚ :=
                if couponUsed then none
                else some (subtotal + tax + deliveryCharge - 0)
              match serviceCreateOrder catalog
                { orderNumber := orderNumber, user := userId, distributor := dist,
                  items := vitems, subtotal := subtotal, discount := 0, tax := tax,
                  taxPercentage := 18, deliveryCharge := deliveryCharge,
                  totalAmount := totalAmount, shippingAddress := addr,
                  paymentMethod := pm, couponCode := body.couponCode,
                  couponRef := none } now with
              | .error e => .error e
              | .ok (o, cat2) => .ok (o, cat2, db2)

/-- `cancelOrder` controller (`PUT /api/orders/:orderId/cancel`): ownership
check, then the model method `cancel` with `reason || 'Cancelled by user'`.
No product-stock write occurs anywhere on this path, so the catalog is
passed through unchanged. -/
def cancelOrderRoute (catalog : Catalog) (o : Order) (userId : Nat)
    (reason : Option String) (now : Nat) : Except OrderError (Order × Catalog) :=
  if o.user ≠ userId then
    .error (.authorization "You are not authorized to cancel this order")
  else
    match o.cancel (jsStringOr reason "Cancelled by user") userId .user now with
    | .error e => .error e
    | .ok o2 => .ok (o2, catalog)

/-- `rejectOrder` controller (`PUT /api/distributor/orders/:orderId/reject`):
requires a reason that is truthy and non-blank after trimming, checks
ownership, then calls the model method with the trimmed reason. -/
def rejectOrderRoute (o : Order) (distributorId : Nat) (reason : Option String)
    (now : Nat) : Except OrderError Order :=
  if jsTrim (jsStringOr reason "") = "" then
    .error (.validation "Rejection reason is required")
  else if o.distributor ≠ distributorId then
    .error (.authorization "You are not authorized to reject this order")
  else
    o.rejectOrder distributorId (jsTrim (jsStringOr reason "")) now

/-- `OrderService.updateOrderStatus(orderId, status)`: the update document
is `{ status }`, but `status` is not a path of the order schema, so under
strict mode `findByIdAndUpdate` strips it and the stored order does not
change; when the requested status is `'cancelled'` the helper then
increments each item's product stock back. -/
def serviceUpdateOrderStatus (catalog : Catalog) (o : Order) (status : String) :
    Except OrderError (Order × Catalog) :=
  if !(["pending", "processing", "shipped", "delivered", "cancelled"].contains status) then
    .error (.generic "Invalid order status")
  else
    let catalog2 :=
      if status = "cancelled" then
        o.items.foldl (fun cat it => incStock cat it.product (it.quantity : Int)) catalog
      else catalog
    .ok (o, catalog2)

/-- `PaymentService.verifyRazorpaySignature`: recompute
`HMAC-SHA256(secret, orderId + "|" + paymentId)` and compare hex digests.
The HMAC primitive comes from the node `crypto` library, an external
collaborator, so it is a parameter of the embedding. -/
def verifyRazorpaySignature (hmacSha256Hex : String → String → String)
    (secret orderId paymentId signature : String) : Bool :=
  hmacSha256Hex secret (orderId ++ "|" ++ paymentId) == signature

instance {ε α : Type} [DecidableEq ε] [DecidableEq α] : DecidableEq (Except ε α) :=
  fun x y =>
    match x, y with
    | .ok a, .ok b =>
      if h : a = b then isTrue (by rw [h])
      else isFalse (by intro hc; cases hc; exact h rfl)
    | .error a, .error b =>
      if h : a = b then isTrue (by rw [h])
      else isFalse (by intro hc; cases hc; exact h rfl)
    | .ok _, .error _ => isFalse (by intro hc; cases hc)
    | .error _, .ok _ => isFalse (by intro hc; cases hc)

/-- Outcome of the verifyPayment controller: the stored order after the
request, and the HTTP response (the failure branch saves the order with
`paymentStatus = 'failed'` and then throws, so the saved state and the
error coexist). -/
structure PaymentRouteResult where
  order : Order
  response : Except OrderError Unit
deriving DecidableEq, Repr

/-- `verifyPayment` controller (`POST /api/orders/razorpay/verify`):
presence checks on the four fields, ownership check, signature check; on
mismatch set `paymentStatus = 'failed'`, save, and throw a ValidationError;
on match record the payment ids, set `paymentStatus = 'paid'` and
`orderStatus = 'confirmed'` directly (no `updateStatus` call), and save. -/
def verifyPaymentRoute (hmacSha256Hex : String → String → String) (secret : String)
    (o : Order) (userId : Nat)
    (orderId razorpayOrderId razorpayPaymentId razorpaySignature : Option String)
    (now : Nat) : PaymentRouteResult :=
  if jsStringOr orderId "" = "" ∨ jsStringOr razorpayOrderId "" = ""
      ∨ jsStringOr razorpayPaymentId "" = "" ∨ jsStringOr razorpaySignature "" = "" then
    { order := o,
      response := .error (.validation "All payment verification fields are required") }
  else if o.user ≠ userId then
    { order := o,
      response := .error (.authorization "You are not authorized to access this order") }
  else
    let roid := jsStringOr razorpayOrderId ""
    let rpid := jsStringOr razorpayPaymentId ""
    let rsig := jsStringOr razorpaySignature ""
    if !verifyRazorpaySignature hmacSha256Hex secret roid rpid rsig then
      match orderSave { orderStatus := false, pricing := false } now
        ({ o with paymentStatus := PaymentStatus.failed }) with
      | .ok o2 =>
        { order := o2,
          response := .error (.validation "Payment verification failed. Please try again.") }
      | .error e => { order := o, response := .error e }
    else
      let m : ModifiedPaths :=
        { orderStatus := decide (o.orderStatus ≠ OrderStatus.confirmed), pricing := false }
      match orderSave m now
        ({ o with razorpayPaymentId := some rpid, razorpaySignature := some rsig,
                  paymentStatus := PaymentStatus.paid,
                  orderStatus := OrderStatus.confirmed }) with
      | .ok o4 => { order := o4, response := .ok () }
      | .error e => { order := o, response := .error e }

theorem historyHook_totalAmount (now : Nat) (m : ModifiedPaths) (o : Order) :
    (historyHook now m o).totalAmount = o.totalAmount := by
  unfold historyHook; split <;> rfl

theorem historyHook_calculatedTotal (now : Nat) (m : ModifiedPaths) (o : Order) :
    calculatedTotal (historyHook now m o) = calculatedTotal o := by
  unfold historyHook calculatedTotal; split <;> rfl

/-- A save that touches neither status nor pricing stores the order as is. -/
theorem orderSave_no_hooks (now : Nat) (o : Order) :
    orderSave { orderStatus := false, pricing := false } now o = .ok o := rfl

/-- A save that only changed `orderStatus` always succeeds and appends the
automatic history entry. -/
theorem orderSave_status_only (now : Nat) (o : Order) :
    orderSave { orderStatus := true, pricing := false } now o =
      .ok { o with statusHistory := o.statusHistory ++ [autoHistoryEntry now o] } := rfl

/-- Characterization of a successful save. -/
theorem orderSave_ok_iff (m : ModifiedPaths) (now : Nat) (o o2 : Order) :
    orderSave m now o = .ok o2 ↔
      ((m.pricing = true → pricingFieldsValid o = true ∧
          |calculatedTotal o - o.totalAmount| ≤ orderTotalTolerance)
        ∧ o2 = historyHook now m o) := by
  obtain ⟨ms, mp⟩ := m
  cases mp with
  | false =>
    have hred : orderSave ⟨ms, false⟩ now o = .ok (historyHook now ⟨ms, false⟩ o) := rfl
    rw [hred]
    constructor
    · intro h
      exact ⟨fun hc => absurd hc Bool.false_ne_true, (Except.ok.inj h).symm⟩
    · intro h
      rw [h.2]
  | true =>
    by_cases hv : pricingFieldsValid o = true
    · by_cases hb : orderTotalTolerance < |calculatedTotal o - o.totalAmount|
      · have hred : orderSave ⟨ms, true⟩ now o = .error (.generic "Total amount mismatch") := by
          unfold orderSave totalAmountHook
          rw [hv]
          rw [historyHook_calculatedTotal, historyHook_totalAmount]
          simp [hb]
        rw [hred]
        constructor
        · intro h
          exact nomatch h
        · intro h
          exact absurd (h.1 rfl).2 (not_le.mpr hb)
      · have hred : orderSave ⟨ms, true⟩ now o = .ok (historyHook now ⟨ms, true⟩ o) := by
          unfold orderSave totalAmountHook
          rw [hv]
          rw [historyHook_calculatedTotal, historyHook_totalAmount]
          simp [hb]
        rw [hred]
        constructor
        · intro h
          exact ⟨fun _ => ⟨hv, not_lt.mp hb⟩, (Except.ok.inj h).symm⟩
        · intro h
          rw [h.2]
    · have hred : orderSave ⟨ms, true⟩ now o = .error (.validation "Order validation failed") := by
        unfold orderSave
        simp [hv]
      rw [hred]
      constructor
      · intro h
        exact nomatch h
      · intro h
        exact absurd (h.1 rfl).1 hv

theorem updateStatusAccept_eq (o : Order) (ns : OrderStatus) (note : Option String)
    (ub : Nat) (ubm : ActorModel) (now : Nat) :
    o.updateStatusAccept ns note ub ubm now =
      .ok ({ o with
             orderStatus := ns,
             statusHistory := (o.statusHistory ++
               [{ status := ns, timestamp := now,
                  note := jsStringOr note ("Status updated to " ++ ns.text),
                  updatedBy := some ub, updatedByModel := some ubm }]) ++
               [{ status := ns, timestamp := now,
                  note := "Order status changed to " ++ ns.text,
                  updatedBy := none, updatedByModel := none }] }) := rfl

/-- Bound carried by any persisted save that touched a pricing field. -/
theorem orderSave_pricing_bound (m : ModifiedPaths) (now : Nat) (o o2 : Order)
    (h : orderSave m now o = .ok o2) (hp : m.pricing = true) :
    |o2.totalAmount - calculatedTotal o2| ≤ orderTotalTolerance := by
  obtain ⟨⟨_, hbound⟩, ho2⟩ := ((orderSave_ok_iff m now o o2).mp h).imp_left (fun f => f hp)
  rw [ho2, historyHook_totalAmount, historyHook_calculatedTotal, abs_sub_comm]
  exact hbound

theorem serviceCreateOrder_ok_bound (catalog : Catalog) (data : OrderData) (now : Nat)
    (o : Order) (cat2 : Catalog)
    (h : serviceCreateOrder catalog data now = .ok (o, cat2)) :
    |o.totalAmount - calculatedTotal o| ≤ orderTotalTolerance := by
  unfold serviceCreateOrder at h
  cases hm : mongooseCreateOrder data now with
  | error e => rw [hm] at h; exact nomatch h
  | ok o3 =>
    rw [hm] at h
    have ho : o3 = o := congrArg Prod.fst (Except.ok.inj h)
    unfold mongooseCreateOrder at hm
    cases ht : data.totalAmount with
    | none => rw [ht] at hm; exact nomatch hm
    | some t =>
      rw [ht] at hm
      rw [← ho]
      exact orderSave_pricing_bound _ now _ o3 hm rfl

theorem controllerCreateOrder_via_service (catalog : Catalog) (couponDb : List Coupon)
    (userId : Nat) (body : CreateOrderBody) (orderNumber : String) (now : Nat)
    (o : Order) (cat2 : Catalog) (db2 : List Coupon)
    (h : controllerCreateOrder catalog couponDb userId body orderNumber now
      = .ok (o, cat2, db2)) :
    ∃ data, serviceCreateOrder catalog data now = .ok (o, cat2) := by
  unfold controllerCreateOrder at h
  split at h
  case _ => exact nomatch h
  split at h
  case _ => exact nomatch h
  split at h
  case _ => exact nomatch h
  split at h
  case _ => exact nomatch h
  split at h
  case _ => exact nomatch h
  split at h
  case _ => exact nomatch h
  dsimp only [] at h
  split at h
  case _ => exact nomatch h
  simp only [Except.ok.injEq, Prod.mk.injEq] at h
  obtain ⟨h1, h2, h3⟩ := h
  subst h1
  subst h2
  exact ⟨_, by assumption⟩

def sampleAddress : ShippingAddress :=
  { fullName := "Asha Kumar", phone := "9876543210", address := "12 MG Road",
    city := "Pune", state := "MH", pincode := "411001" }

/-- A persisted order sitting at `pending` with consistent pricing. -/
def baseOrder : Order :=
  { orderNumber := "ORD-1", user := 9, distributor := 5, items := [],
    subtotal := 20, discount := 0, tax := 0, taxPercentage := 0,
    deliveryCharge := 50, totalAmount := 70, shippingAddress := sampleAddress,
    paymentMethod := PaymentMethod.cod, paymentStatus := PaymentStatus.pending,
    razorpayOrderId := none, razorpayPaymentId := none, razorpaySignature := none,
    orderStatus := OrderStatus.pending, statusHistory := [], couponCode := none,
    couponRef := none, cancellationReason := none, cancelledAt := none,
    cancelledBy := none, cancelledByModel := none,
    approvalStatus := ApprovalStatus.pending, approvedAt := none,
    approvedBy := none, rejectionReason := none }

def catalog0 : Catalog :=
  [(1, { price := 10, stock := 100, isActive := true, productDistributor := some 5,
         name := "Cement", image := none })]

def catalog98 : Catalog :=
  [(1, { price := 10, stock := 98, isActive := true, productDistributor := some 5,
         name := "Cement", image := none })]

def body0 : CreateOrderBody :=
  { items := [{ product := 1, quantity := 2 }], shippingAddress := some sampleAddress,
    paymentMethod := some PaymentMethod.cod, couponCode := none, distributor := some 5 }

/-- The order the createOrder pipeline persists for `body0` against
`catalog0`: subtotal 20, tax 3.6, delivery charge 50, total 73.6. -/
def createdOrder : Order :=
  { orderNumber := "ORD-1", user := 9, distributor := 5,
    items := [{ product := 1, itemDistributor := some 5, quantity := 2, price := 10,
                name := some "Cement", image := none }],
    subtotal := 20, discount := 0, tax := 18/5, taxPercentage := 18,
    deliveryCharge := 50, totalAmount := 368/5, shippingAddress := sampleAddress,
    paymentMethod := PaymentMethod.cod, paymentStatus := PaymentStatus.pending,
    razorpayOrderId := none, razorpayPaymentId := none, razorpaySignature := none,
    orderStatus := OrderStatus.pending,
    statusHistory := [{ status := OrderStatus.pending, timestamp := 0,
                        note := "Order status changed to pending",
                        updatedBy := none, updatedByModel := none }],
    couponCode := none, couponRef := none, cancellationReason := none,
    cancelledAt := none, cancelledBy := none, cancelledByModel := none,
    approvalStatus := ApprovalStatus.pending, approvedAt := none,
    approvedBy := none, rejectionReason := none }

/-- Concrete evaluation of the createOrder pipeline: the order above is
persisted and the catalog stock drops from 100 to 98. -/
theorem create0_eval :
    controllerCreateOrder catalog0 [] 9 body0 "ORD-1" 0 =
      .ok (createdOrder, catalog98, []) := by
  norm_num [controllerCreateOrder, body0, catalog0, catalog98, validateItems,
    findProduct, createOrderCouponStep, serviceCreateOrder, mongooseCreateOrder,
    orderSave, pricingFieldsValid, totalAmountHook, historyHook, autoHistoryEntry,
    calculatedTotal, orderTotalTolerance, incStock, createdOrder, OrderStatus.text,
    List.find?, abs]
  decide

/-- C1: after every persisted mutation that touched a pricing field
(subtotal, discount, deliveryCharge, tax, totalAmount), the stored order
satisfies `|totalAmount - (subtotal + deliveryCharge - discount)| ≤ 5`;
in particular an order persisted by the createOrder pipeline (whose new
document is saved with every path modified) satisfies the bound. -/
theorem c1_total_invariant :
    (∀ (m : ModifiedPaths) (now : Nat) (o o2 : Order),
        orderSave m now o = .ok o2 → m.pricing = true →
        |o2.totalAmount - calculatedTotal o2| ≤ orderTotalTolerance)
    ∧ (∀ (catalog : Catalog) (couponDb : List Coupon) (userId : Nat)
        (body : CreateOrderBody) (orderNumber : String) (now : Nat)
        (o : Order) (cat2 : Catalog) (db2 : List Coupon),
        controllerCreateOrder catalog couponDb userId body orderNumber now
          = .ok (o, cat2, db2) →
        |o.totalAmount - calculatedTotal o| ≤ orderTotalTolerance) := by
  constructor
  · intro m now o o2 h hp
    exact orderSave_pricing_bound m now o o2 h hp
  · intro catalog couponDb userId body orderNumber now o cat2 db2 h
    obtain ⟨data, hs⟩ := controllerCreateOrder_via_service _ _ _ _ _ _ _ _ _ h
    exact serviceCreateOrder_ok_bound _ data now o cat2 hs

theorem c1_total_invariant_witness :
    |baseOrder.totalAmount - calculatedTotal baseOrder| ≤ orderTotalTolerance
    ∧ |createdOrder.totalAmount - calculatedTotal createdOrder| ≤ orderTotalTolerance :=
  ⟨c1_total_invariant.left ⟨false, true⟩ 0 baseOrder baseOrder
      (by norm_num [orderSave, pricingFieldsValid, totalAmountHook, historyHook,
        calculatedTotal, orderTotalTolerance, baseOrder, abs]) rfl,
   c1_total_invariant.right catalog0 [] 9 body0 "ORD-1" 0 createdOrder catalog98 []
     create0_eval⟩

/-- C2: for an order that is neither delivered nor cancelled, `updateStatus`
accepts a request exactly when the target is `cancelled` or strictly later
in the chain pending < confirmed < processing < shipped < delivered, and
rejects backward or same-position requests with a ValidationError; from
`delivered` or `cancelled` every request raises a ValidationError. -/
theorem c2_update_status_transitions (o : Order) (ns : OrderStatus)
    (note : Option String) (ub : Nat) (ubm : ActorModel) (now : Nat) :
    (o.orderStatus ≠ OrderStatus.delivered → o.orderStatus ≠ OrderStatus.cancelled →
      ((exceptOk (o.updateStatus ns note ub ubm now) = true ↔
          (ns = OrderStatus.cancelled ∨ statusIndex o.orderStatus < statusIndex ns))
        ∧ (¬(ns = OrderStatus.cancelled ∨ statusIndex o.orderStatus < statusIndex ns) →
            ∃ msg, o.updateStatus ns note ub ubm now = .error (.validation msg))))
    ∧ ((o.orderStatus = OrderStatus.delivered ∨ o.orderStatus = OrderStatus.cancelled) →
        ∃ msg, o.updateStatus ns note ub ubm now = .error (.validation msg)) := by
  constructor
  · intro hnd hnc
    constructor
    · unfold Order.updateStatus
      rw [if_neg hnd, if_neg hnc]
      by_cases hcs : ns = OrderStatus.cancelled
      · rw [if_pos hcs, updateStatusAccept_eq]
        simp [hcs, exceptOk]
      · rw [if_neg hcs]
        by_cases hlt : statusIndex o.orderStatus < statusIndex ns
        · rw [if_pos hlt, updateStatusAccept_eq]
          simp [hlt, exceptOk]
        · rw [if_neg hlt]
          simp [exceptOk, hcs, hlt]
    · intro hrej
      rw [not_or] at hrej
      unfold Order.updateStatus
      rw [if_neg hnd, if_neg hnc, if_neg hrej.1, if_neg hrej.2]
      exact ⟨_, rfl⟩
  · intro ht
    unfold Order.updateStatus
    by_cases hd : o.orderStatus = OrderStatus.delivered
    · rw [if_pos hd]
      exact ⟨_, rfl⟩
    · rw [if_neg hd, if_pos (ht.resolve_left hd)]
      exact ⟨_, rfl⟩

theorem c2_update_status_transitions_witness :
    exceptOk (baseOrder.updateStatus OrderStatus.processing none 7 ActorModel.distributor 3)
      = true :=
  ((c2_update_status_transitions baseOrder OrderStatus.processing none 7
      ActorModel.distributor 3).left (by decide) (by decide)).left.mpr
    (Or.inr (by decide))

/-- C3: approval succeeds only while approval status is `pending` (after it
has left `pending`, both approve and reject raise an error); on success it
sets approval status to `approved`, records the approving distributor and
timestamp, overwrites the delivery charge and recomputes
`totalAmount = subtotal + deliveryCharge - discount` (no tax term) exactly
when an override is supplied, and advances a still-`pending` order status
to `confirmed`. -/
theorem c3_approve_order (o : Order) (did : Nat) (dc : Option ℚ) (reason : String)
    (now : Nat) :
    (o.approvalStatus ≠ ApprovalStatus.pending →
      (∃ msg, o.approveOrder did dc now = .error (.generic msg))
      ∧ (∃ msg, o.rejectOrder did reason now = .error (.generic msg)))
    ∧ (∀ o2, o.approveOrder did dc now = .ok o2 →
        o.approvalStatus = ApprovalStatus.pending
        ∧ o2.approvalStatus = ApprovalStatus.approved
        ∧ o2.approvedBy = some did ∧ o2.approvedAt = some now
        ∧ (∀ d, dc = some d → o2.deliveryCharge = d
            ∧ o2.totalAmount = o.subtotal + d - o.discount)
        ∧ (dc = none → o2.deliveryCharge = o.deliveryCharge
            ∧ o2.totalAmount = o.totalAmount)
        ∧ (o.orderStatus = OrderStatus.pending → o2.orderStatus = OrderStatus.confirmed)
        ∧ (o.orderStatus ≠ OrderStatus.pending → o2.orderStatus = o.orderStatus)) := by
  constructor
  · intro hnp
    constructor
    · unfold Order.approveOrder
      rw [if_pos hnp]
      exact ⟨_, rfl⟩
    · unfold Order.rejectOrder
      rw [if_pos hnp]
      exact ⟨_, rfl⟩
  · intro o2 h
    unfold Order.approveOrder at h
    by_cases hp : o.approvalStatus ≠ ApprovalStatus.pending
    · rw [if_pos hp] at h
      exact nomatch h
    · rw [if_neg hp] at h
      push_neg at hp
      dsimp only [] at h
      cases dc with
      | none =>
        rw [orderSave_ok_iff] at h
        obtain ⟨-, ho2⟩ := h
        subst ho2
        by_cases hs : o.orderStatus = OrderStatus.pending
        · simp [historyHook, hs, hp, autoHistoryEntry]
        · simp [historyHook, hs, hp, autoHistoryEntry]
      | some d =>
        rw [orderSave_ok_iff] at h
        obtain ⟨-, ho2⟩ := h
        subst ho2
        by_cases hs : o.orderStatus = OrderStatus.pending
        · simp [historyHook, hs, hp, autoHistoryEntry]
        · simp [historyHook, hs, hp, autoHistoryEntry]

/-- The order `approveOrder` persists for `baseOrder` with no delivery
charge override at tick 4 by distributor 5. -/
def approvedBase : Order :=
  { baseOrder with
    approvalStatus := ApprovalStatus.approved, approvedAt := some 4,
    approvedBy := some 5, orderStatus := OrderStatus.confirmed,
    statusHistory := [{ status := OrderStatus.confirmed, timestamp := 4,
                        note := "Order status changed to confirmed",
                        updatedBy := none, updatedByModel := none }] }

theorem c3_approve_order_witness :
    baseOrder.approvalStatus = ApprovalStatus.pending
    ∧ approvedBase.approvalStatus = ApprovalStatus.approved
    ∧ approvedBase.approvedBy = some 5
    ∧ approvedBase.orderStatus = OrderStatus.confirmed :=
  let r := (c3_approve_order baseOrder 5 none "reason" 4).right approvedBase (by decide)
  ⟨r.1, r.2.1, r.2.2.1, r.2.2.2.2.2.2.1 (by decide)⟩

/-- C4: rejection (through the distributor controller) succeeds only while
approval status is `pending` and only with a reason that is non-blank after
trimming; on success it sets approval status to `rejected`, records the
rejecting distributor, forces order status to `cancelled`, and fills the
cancellation record with the same distributor actor. -/
theorem c4_reject_order (o : Order) (did : Nat) (reason : Option String) (now : Nat)
    (hown : o.distributor = did) :
    (∀ o2, rejectOrderRoute o did reason now = .ok o2 →
        jsTrim (jsStringOr reason "") ≠ "" ∧ o.approvalStatus = ApprovalStatus.pending
        ∧ o2.approvalStatus = ApprovalStatus.rejected
        ∧ o2.approvedBy = some did
        ∧ o2.rejectionReason = some (jsTrim (jsStringOr reason ""))
        ∧ o2.orderStatus = OrderStatus.cancelled
        ∧ o2.cancelledAt = some now ∧ o2.cancelledBy = some did
        ∧ o2.cancelledByModel = some ActorModel.distributor)
    ∧ (jsTrim (jsStringOr reason "") = "" →
        rejectOrderRoute o did reason now
          = .error (.validation "Rejection reason is required"))
    ∧ (o.approvalStatus = ApprovalStatus.pending → jsTrim (jsStringOr reason "") ≠ "" →
        exceptOk (rejectOrderRoute o did reason now) = true) := by
  refine ⟨?_, ?_, ?_⟩
  · intro o2 h
    unfold rejectOrderRoute at h
    by_cases ht : jsTrim (jsStringOr reason "") = ""
    · rw [if_pos ht] at h
      exact nomatch h
    · rw [if_neg ht, if_neg (by simp [hown])] at h
      unfold Order.rejectOrder at h
      by_cases hp : o.approvalStatus ≠ ApprovalStatus.pending
      · rw [if_pos hp] at h
        exact nomatch h
      · rw [if_neg hp] at h
        push_neg at hp
        rw [orderSave_ok_iff] at h
        obtain ⟨-, ho2⟩ := h
        subst ho2
        refine ⟨ht, hp, ?_⟩
        unfold historyHook
        split <;> exact ⟨rfl, rfl, rfl, rfl, rfl, rfl, rfl⟩
  · intro ht
    unfold rejectOrderRoute
    rw [if_pos ht]
  · intro hp ht
    unfold rejectOrderRoute
    rw [if_neg ht, if_neg (by simp [hown])]
    unfold Order.rejectOrder
    rw [if_neg (by simp [hp])]
    simp [orderSave, totalAmountHook, exceptOk]

theorem c4_reject_order_witness :
    exceptOk (rejectOrderRoute baseOrder 5 (some " out of stock ") 2) = true :=
  (c4_reject_order baseOrder 5 (some " out of stock ") 2 (by decide)).2.2
    (by decide) (by decide)

/-- C5 counterexample: creating the order decrements product 1's stock from
100 to 98, yet the buyer cancellation path (controller `cancelOrder` via
the model method `cancel`) completes with the stock still at 98 — nothing
is restored, refuting the claimed restore-on-cancel. -/
theorem c5_cancel_stock_cex :
    (controllerCreateOrder catalog0 [] 9 body0 "ORD-1" 0).map
        (fun r => (findProduct r.2.1 1).map Product.stock) = .ok (some 98)
    ∧ ((controllerCreateOrder catalog0 [] 9 body0 "ORD-1" 0).bind
        (fun r => (cancelOrderRoute r.2.1 r.1 9 none 1).map
          (fun rc => (findProduct rc.2 1).map Product.stock))) = .ok (some 98)
    ∧ (findProduct catalog0 1).map Product.stock = some 100 := by
  refine ⟨?_, ?_, rfl⟩
  · rw [create0_eval]
    rfl
  · rw [create0_eval]
    rfl

/-- C5 (amended): buyer-initiated cancellation is permitted exactly when the
order status is `pending`, `confirmed`, or `processing` (otherwise a plain
error), but it performs no stock adjustment at all: the catalog after a
successful cancellation is the one before it. The only stock-restoring path
is the service-layer `updateOrderStatus` helper, which adds each item's
quantity back when asked for `'cancelled'` (and leaves the stored order
unchanged, since it updates a non-schema `status` path). -/
theorem c5_cancel_no_restore (catalog : Catalog) (o : Order) (userId : Nat)
    (reason : Option String) (now : Nat) (hown : o.user = userId) :
    ((exceptOk (cancelOrderRoute catalog o userId reason now) = true)
        ↔ canBeCancelled o = true)
    ∧ (∀ o2 cat2, cancelOrderRoute catalog o userId reason now = .ok (o2, cat2) →
        cat2 = catalog ∧ o2.orderStatus = OrderStatus.cancelled)
    ∧ (canBeCancelled o = false →
        cancelOrderRoute catalog o userId reason now
          = .error (.generic "Order cannot be cancelled in current status"))
    ∧ (serviceUpdateOrderStatus catalog o "cancelled"
        = .ok (o, o.items.foldl
            (fun cat it => incStock cat it.product (it.quantity : Int)) catalog)) := by
  have hneq : ¬(o.user ≠ userId) := by simp [hown]
  refine ⟨?_, ?_, ?_, ?_⟩
  · unfold cancelOrderRoute Order.cancel
    rw [if_neg hneq]
    cases hc : canBeCancelled o with
    | false => simp [exceptOk]
    | true => simp [orderSave, totalAmountHook, exceptOk]
  · intro o2 cat2 h
    unfold cancelOrderRoute at h
    rw [if_neg hneq] at h
    unfold Order.cancel at h
    cases hc : canBeCancelled o with
    | false => simp [hc] at h
    | true =>
      rw [hc] at h
      simp only [Bool.not_true, Bool.false_eq_true, if_false, orderSave_status_only] at h
      obtain ⟨ho2, hcat⟩ := Prod.mk.injEq .. ▸ Except.ok.inj h
      refine ⟨hcat.symm, ?_⟩
      rw [← ho2]
  · intro hc
    unfold cancelOrderRoute Order.cancel
    rw [if_neg hneq, hc]
    rfl
  · unfold serviceUpdateOrderStatus
    rfl

theorem c5_cancel_no_restore_witness :
    exceptOk (cancelOrderRoute catalog98 createdOrder 9 none 1) = true :=
  (c5_cancel_no_restore catalog98 createdOrder 9 none 1 (by decide)).1.mpr (by decide)

/-- C6: for a coupon found by uppercased code, active and unexpired, a
subtotal below the minimum purchase is rejected; otherwise the application
returns the computed discount and saves the coupon: `percentage` yields
`subtotal * value / 100` clamped to the cap exactly when the cap is
positive (cap 0 means uncapped) and so never exceeds a positive cap, while
`fixed` yields the flat value regardless of subtotal. -/
theorem c6_coupon_discount (db : List Coupon) (code : String) (total : ℚ) (now : Nat)
    (c : Coupon) (hfind : findCoupon db code now = some c) :
    (total < c.minPurchase →
        applyCouponService db code total now
          = .error (.generic "Minimum purchase required"))
    ∧ (c.minPurchase ≤ total →
        applyCouponService db code total now =
          .ok (couponDiscount c total, { c with usageCount := c.usageCount + 1 },
               saveCouponInDb db { c with usageCount := c.usageCount + 1 }))
    ∧ (c.discountType = DiscountType.percentage →
        couponDiscount c total =
          (if 0 < c.maxDiscount ∧ c.maxDiscount < total * c.discountValue / 100
           then c.maxDiscount else total * c.discountValue / 100))
    ∧ (c.discountType = DiscountType.percentage → 0 < c.maxDiscount →
        couponDiscount c total ≤ c.maxDiscount)
    ∧ (c.discountType = DiscountType.fixed →
        couponDiscount c total = c.discountValue) := by
  refine ⟨?_, ?_, ?_, ?_, ?_⟩
  · intro hlt
    unfold applyCouponService
    simp only [hfind]
    rw [if_pos hlt]
  · intro hge
    unfold applyCouponService
    simp only [hfind]
    rw [if_neg (not_lt.mpr hge)]
  · intro hp
    simp [couponDiscount, hp]
  · intro hp hcap
    by_cases hgt : c.maxDiscount < total * c.discountValue / 100
    · simp [couponDiscount, hp, hcap, hgt]
    · simp [couponDiscount, hp, hgt, not_lt.mp hgt]
  · intro hf
    simp [couponDiscount, hf]

def coupon10 : Coupon :=
  { code := "SAVE10", discountType := DiscountType.percentage, discountValue := 10,
    minPurchase := 100, maxDiscount := 50, expiryDate := 100, isActive := true,
    usageCount := 0 }

theorem c6_coupon_discount_witness :
    couponDiscount coupon10 500 ≤ coupon10.maxDiscount
    ∧ applyCouponService [coupon10] "save10" 500 0 =
        .ok (couponDiscount coupon10 500,
             { coupon10 with usageCount := coupon10.usageCount + 1 },
             saveCouponInDb [coupon10] { coupon10 with usageCount := coupon10.usageCount + 1 }) :=
  ⟨(c6_coupon_discount [coupon10] "save10" 500 0 coupon10 (by decide)).2.2.2.1
      (by decide) (by decide),
   (c6_coupon_discount [coupon10] "save10" 500 0 coupon10 (by decide)).2.1 (by decide)⟩

/-- C7 counterexample: the standalone pre-checkout preview route
(`POST /api/orders/coupon/apply`) does mutate the coupon: after a
successful preview the stored usage counter has moved from 0 to 1,
refuting the claim that the preview leaves the usage counter unchanged. -/
theorem c7_preview_mutates_cex :
    (applyCouponRoute [coupon10] (some "SAVE10") 500 0).map
        (fun r => r.2.map Coupon.usageCount) = .ok [1]
    ∧ coupon10.usageCount = 0 := by
  exact ⟨rfl, rfl⟩

/-- C7 (amended): both the standalone preview route and order creation call
the same `OrderService.applyCoupon`, which increments the coupon's usage
counter and saves it on every successful application — so the preview path
also mutates the coupon (while leaving order state untouched; its response
even reads the service's numeric return as `undefined`). -/
theorem c7_usage_increment (db : List Coupon) (code : String) (total : ℚ) (now : Nat)
    (c : Coupon) (hfind : findCoupon db code now = some c)
    (hmin : c.minPurchase ≤ total) (hpos : 0 < total) (hcode : code ≠ "") :
    applyCouponRoute db (some code) total now =
      .ok ({ discount := none, finalAmount := none },
           saveCouponInDb db { c with usageCount := c.usageCount + 1 })
    ∧ applyCouponService db code total now =
        .ok (couponDiscount c total, { c with usageCount := c.usageCount + 1 },
             saveCouponInDb db { c with usageCount := c.usageCount + 1 }) := by
  have hserv : applyCouponService db code total now =
      .ok (couponDiscount c total, { c with usageCount := c.usageCount + 1 },
           saveCouponInDb db { c with usageCount := c.usageCount + 1 }) := by
    unfold applyCouponService
    simp only [hfind]
    rw [if_neg (not_lt.mpr hmin)]
  refine ⟨?_, hserv⟩
  have hjs : jsStringOr (some code) "" = code := by simp [jsStringOr, hcode]
  unfold applyCouponRoute
  rw [hjs, if_neg hcode, if_neg (not_le.mpr hpos), hserv]

theorem c7_usage_increment_witness :
    applyCouponRoute [coupon10] (some "save10") 500 0 =
      .ok ({ discount := none, finalAmount := none },
           saveCouponInDb [coupon10] { coupon10 with usageCount := coupon10.usageCount + 1 }) :=
  (c7_usage_increment [coupon10] "save10" 500 0 coupon10 (by decide) (by decide)
    (by decide) (by decide)).1

theorem orderSave_pricing_false (b : Bool) (now : Nat) (o : Order) :
    orderSave ⟨b, false⟩ now o = .ok (historyHook now ⟨b, false⟩ o) := by
  cases b <;> rfl

theorem historyHook_paymentStatus (now : Nat) (m : ModifiedPaths) (o : Order) :
    (historyHook now m o).paymentStatus = o.paymentStatus := by
  unfold historyHook; split <;> rfl

theorem historyHook_orderStatus (now : Nat) (m : ModifiedPaths) (o : Order) :
    (historyHook now m o).orderStatus = o.orderStatus := by
  unfold historyHook; split <;> rfl

theorem historyHook_razorpayPaymentId (now : Nat) (m : ModifiedPaths) (o : Order) :
    (historyHook now m o).razorpayPaymentId = o.razorpayPaymentId := by
  unfold historyHook; split <;> rfl

theorem historyHook_razorpaySignature (now : Nat) (m : ModifiedPaths) (o : Order) :
    (historyHook now m o).razorpaySignature = o.razorpaySignature := by
  unfold historyHook; split <;> rfl

/-- C8 counterexample: one accepted transition (pending → confirmed, with a
caller note) on an order whose history was empty leaves a history of length
2, refuting "appends exactly one entry": the explicit push inside
`updateStatus` and the pre-save hook each append one. -/
theorem c8_history_double_cex :
    (baseOrder.updateStatus OrderStatus.confirmed (some "packed") 7
        ActorModel.distributor 3).map (fun o => o.statusHistory.length) = .ok 2
    ∧ baseOrder.statusHistory.length = 0 :=
  ⟨rfl, rfl⟩

/-- C8 (amended): every accepted transition through `updateStatus` appends
exactly two history entries — first the explicit entry carrying the new
status, timestamp, caller-supplied note (or generated default), actor
reference and actor kind; then the pre-save hook's entry carrying the new
status, timestamp, a generated note and no actor. -/
theorem c8_history_two_entries (o : Order) (ns : OrderStatus) (note : Option String)
    (ub : Nat) (ubm : ActorModel) (now : Nat) (o2 : Order)
    (h : o.updateStatus ns note ub ubm now = .ok o2) :
    o2.statusHistory = (o.statusHistory ++
        [{ status := ns, timestamp := now,
           note := jsStringOr note ("Status updated to " ++ ns.text),
           updatedBy := some ub, updatedByModel := some ubm }]) ++
        [{ status := ns, timestamp := now,
           note := "Order status changed to " ++ ns.text,
           updatedBy := none, updatedByModel := none }] := by
  unfold Order.updateStatus at h
  by_cases hd : o.orderStatus = OrderStatus.delivered
  · rw [if_pos hd] at h
    exact nomatch h
  · rw [if_neg hd] at h
    by_cases hc : o.orderStatus = OrderStatus.cancelled
    · rw [if_pos hc] at h
      exact nomatch h
    · rw [if_neg hc] at h
      by_cases hcs : ns = OrderStatus.cancelled
      · rw [if_pos hcs, updateStatusAccept_eq] at h
        rw [← Except.ok.inj h]
      · rw [if_neg hcs] at h
        by_cases hlt : statusIndex o.orderStatus < statusIndex ns
        · rw [if_pos hlt, updateStatusAccept_eq] at h
          rw [← Except.ok.inj h]
        · rw [if_neg hlt] at h
          exact nomatch h

/-- The order stored by the witness transition of C8. -/
def confirmedBase : Order :=
  { baseOrder with
    orderStatus := OrderStatus.confirmed,
    statusHistory := [{ status := OrderStatus.confirmed, timestamp := 3,
                        note := "packed", updatedBy := some 7,
                        updatedByModel := some ActorModel.distributor },
                      { status := OrderStatus.confirmed, timestamp := 3,
                        note := "Order status changed to confirmed",
                        updatedBy := none, updatedByModel := none }] }

theorem c8_history_two_entries_witness :
    confirmedBase.statusHistory = (baseOrder.statusHistory ++
        [{ status := OrderStatus.confirmed, timestamp := 3,
           note := jsStringOr (some "packed")
             ("Status updated to " ++ OrderStatus.text OrderStatus.confirmed),
           updatedBy := some 7, updatedByModel := some ActorModel.distributor }]) ++
        [{ status := OrderStatus.confirmed, timestamp := 3,
           note := "Order status changed to " ++ OrderStatus.text OrderStatus.confirmed,
           updatedBy := none, updatedByModel := none }] :=
  c8_history_two_entries baseOrder OrderStatus.confirmed (some "packed") 7
    ActorModel.distributor 3 confirmedBase (by decide)

/-- C9: the signature adapter recomputes the HMAC of
`orderId + "|" + paymentId` and compares digests for equality; on a
mismatching signature the verifyPayment controller persists the order with
`paymentStatus = 'failed'` and every other field unchanged, and the request
fails with a ValidationError. -/
theorem c9_verify_payment_failure (hmac : String → String → String) (secret : String)
    (o : Order) (userId : Nat) (oid roid rpid rsig : String) (now : Nat)
    (hoid : oid ≠ "") (hroid : roid ≠ "") (hrpid : rpid ≠ "") (hrsig : rsig ≠ "")
    (hown : o.user = userId)
    (hmismatch : hmac secret (roid ++ "|" ++ rpid) ≠ rsig) :
    verifyRazorpaySignature hmac secret roid rpid rsig = false
    ∧ verifyPaymentRoute hmac secret o userId (some oid) (some roid) (some rpid)
        (some rsig) now =
      { order := { o with paymentStatus := PaymentStatus.failed },
        response := .error (.validation "Payment verification failed. Please try again.") }
    ∧ (∀ a b s2, verifyRazorpaySignature hmac secret a b s2 = true ↔
        hmac secret (a ++ "|" ++ b) = s2) := by
  have hver : verifyRazorpaySignature hmac secret roid rpid rsig = false := by
    simp [verifyRazorpaySignature, hmismatch]
  refine ⟨hver, ?_, ?_⟩
  · unfold verifyPaymentRoute
    have h1 : jsStringOr (some oid) "" = oid := by simp [jsStringOr, hoid]
    have h2 : jsStringOr (some roid) "" = roid := by simp [jsStringOr, hroid]
    have h3 : jsStringOr (some rpid) "" = rpid := by simp [jsStringOr, hrpid]
    have h4 : jsStringOr (some rsig) "" = rsig := by simp [jsStringOr, hrsig]
    rw [h1, h2, h3, h4]
    rw [if_neg (by simp [hoid, hroid, hrpid, hrsig])]
    rw [if_neg (by simp [hown])]
    dsimp only []
    rw [hver]
    simp [orderSave_no_hooks]
  · intro a b s2
    simp [verifyRazorpaySignature]

def hmacSample : String → String → String := fun _ msg => msg

theorem c9_verify_payment_failure_witness :
    verifyPaymentRoute hmacSample "k" baseOrder 9 (some "o1") (some "r1") (some "p1")
        (some "sig") 6 =
      { order := { baseOrder with paymentStatus := PaymentStatus.failed },
        response := .error (.validation "Payment verification failed. Please try again.") } :=
  (c9_verify_payment_failure hmacSample "k" baseOrder 9 "o1" "r1" "p1" "sig" 6
    (by decide) (by decide) (by decide) (by decide) rfl (by decide)).2.1

/-- C10: whenever the signature matches, the verifyPayment controller
unconditionally persists `paymentStatus = 'paid'` and
`orderStatus = 'confirmed'` along with the gateway ids, with no constraint
on the current order status and without the `updateStatus` transition
validator — which would reject `confirmed` from `shipped`, as the last
conjunct shows — so a verified payment on a `processing`, `shipped` or
`delivered` order moves its status back to `confirmed`. -/
theorem c10_verify_payment_success (hmac : String → String → String) (secret : String)
    (o : Order) (userId : Nat) (oid roid rpid rsig : String) (now : Nat)
    (hoid : oid ≠ "") (hroid : roid ≠ "") (hrpid : rpid ≠ "") (hrsig : rsig ≠ "")
    (hown : o.user = userId) (hmethod : o.paymentMethod = PaymentMethod.online)
    (hmatch : hmac secret (roid ++ "|" ++ rpid) = rsig) :
    (verifyPaymentRoute hmac secret o userId (some oid) (some roid) (some rpid)
        (some rsig) now).response = .ok ()
    ∧ (verifyPaymentRoute hmac secret o userId (some oid) (some roid) (some rpid)
        (some rsig) now).order.paymentStatus = PaymentStatus.paid
    ∧ (verifyPaymentRoute hmac secret o userId (some oid) (some roid) (some rpid)
        (some rsig) now).order.orderStatus = OrderStatus.confirmed
    ∧ (verifyPaymentRoute hmac secret o userId (some oid) (some roid) (some rpid)
        (some rsig) now).order.razorpayPaymentId = some rpid
    ∧ (verifyPaymentRoute hmac secret o userId (some oid) (some roid) (some rpid)
        (some rsig) now).order.razorpaySignature = some rsig
    ∧ (o.orderStatus = OrderStatus.shipped →
        exceptOk (o.updateStatus OrderStatus.confirmed none userId
          ActorModel.distributor now) = false) := by
  have hver : verifyRazorpaySignature hmac secret roid rpid rsig = true := by
    simp [verifyRazorpaySignature, hmatch]
  have hres : verifyPaymentRoute hmac secret o userId (some oid) (some roid)
      (some rpid) (some rsig) now =
      { order := historyHook now ⟨decide (o.orderStatus ≠ OrderStatus.confirmed), false⟩
          ({ o with razorpayPaymentId := some rpid, razorpaySignature := some rsig,
                    paymentStatus := PaymentStatus.paid,
                    orderStatus := OrderStatus.confirmed }),
        response := .ok () } := by
    unfold verifyPaymentRoute
    have h1 : jsStringOr (some oid) "" = oid := by simp [jsStringOr, hoid]
    have h2 : jsStringOr (some roid) "" = roid := by simp [jsStringOr, hroid]
    have h3 : jsStringOr (some rpid) "" = rpid := by simp [jsStringOr, hrpid]
    have h4 : jsStringOr (some rsig) "" = rsig := by simp [jsStringOr, hrsig]
    rw [h1, h2, h3, h4]
    rw [if_neg (by simp [hoid, hroid, hrpid, hrsig])]
    rw [if_neg (by simp [hown])]
    dsimp only []
    rw [hver]
    simp only [Bool.not_true, Bool.false_eq_true, if_false, orderSave_pricing_false]
  refine ⟨?_, ?_, ?_, ?_, ?_, ?_⟩
  · rw [hres]
  · rw [hres]
    exact historyHook_paymentStatus ..
  · rw [hres]
    rw [historyHook_orderStatus]
  · rw [hres]
    rw [historyHook_razorpayPaymentId]
  · rw [hres]
    rw [historyHook_razorpaySignature]
  · intro hs
    simp [Order.updateStatus, hs, statusIndex, exceptOk]

def shippedOrder : Order :=
  { baseOrder with orderStatus := OrderStatus.shipped,
                   paymentMethod := PaymentMethod.online }

theorem c10_verify_payment_success_witness :
    (verifyPaymentRoute hmacSample "k" shippedOrder 9 (some "o1") (some "r1")
        (some "p1") (some "r1|p1") 6).order.orderStatus = OrderStatus.confirmed
    ∧ exceptOk (shippedOrder.updateStatus OrderStatus.confirmed none 9
        ActorModel.distributor 6) = false :=
  ⟨(c10_verify_payment_success hmacSample "k" shippedOrder 9 "o1" "r1" "p1" "r1|p1" 6
      (by decide) (by decide) (by decide) (by decide) rfl rfl (by decide)).2.2.1,
   (c10_verify_payment_success hmacSample "k" shippedOrder 9 "o1" "r1" "p1" "r1|p1" 6
      (by decide) (by decide) (by decide) (by decide) rfl rfl (by decide)).2.2.2.2.2
     (by decide)⟩
